import Mathlib

/-
Verification development for the WIFI-QR tool (src/main.rs).

The program has two pieces of logic:
  * `assemble_qr_string` builds the WIFI connection-descriptor string from the
    parsed arguments, panicking when a security standard is given without a
    password; the panic is embedded here as `Except.error` carrying the exact
    panic message.
  * `get_bool_matrix_as_string` renders a boolean module matrix into a text
    block, two characters per cell and one newline per row.

Machine strings are embedded as Lean `String` values (lists of characters);
the Rust `format!` template is embedded as the corresponding left-to-right
string concatenation.
-/

/-- The enum SecurityTypes of src/main.rs: the four supported standards. -/
inductive SecurityTypes : Type
  | Wep
  | Wpa
  | Wpa2
  | Wpa3
deriving DecidableEq

/-- Display form of a security standard. The Rust Display impl delegates to
the derived Debug form, so the token is the variant name verbatim
(capitalized first letter, rest lowercase). -/
def SecurityTypes.toString : SecurityTypes → String
  | SecurityTypes.Wep => "Wep"
  | SecurityTypes.Wpa => "Wpa"
  | SecurityTypes.Wpa2 => "Wpa2"
  | SecurityTypes.Wpa3 => "Wpa3"

/-- The enum ECCLevel of src/main.rs (unused by the two core functions,
kept so that the argument record matches the source). -/
inductive ECCLevel : Type
  | Low
  | Medium
  | Quartile
  | High
deriving DecidableEq

/-- The struct Args of src/main.rs: the parsed command-line credentials. -/
structure Args where
  ssid : String
  psw : Option String
  sec : Option SecurityTypes
  hidden : Bool
  ecc : ECCLevel
deriving DecidableEq

deriving instance DecidableEq for Except

/-- Rust Display of a bool: the literal text true or false. -/
def boolString (b : Bool) : String := if b then "true" else "false"

/-- The password defaulting at the top of assemble_qr_string:
Some(x) => x, None => String::new(). -/
def pswString (p : Option String) : String :=
  match p with
  | some x => x
  | none => ""

/-- The panic message raised by assemble_qr_string when a security standard
is provided without a password. -/
def panicMessage (s : SecurityTypes) : String :=
  "No password was provided, but a security-standard was provided! Provided security-standard "
    ++ SecurityTypes.toString s ++ "."

/-- The four-way if/else chain of assemble_qr_string that resolves the
security token; the panic branch becomes Except.error. The Option.getD
models args.sec.unwrap(), reached only when the option is known Some. -/
def resolve_security (sec : Option SecurityTypes) (psw : String) : Except String String :=
  if sec.isNone && !psw.isEmpty then
    Except.ok (SecurityTypes.toString SecurityTypes.Wpa2)
  else if sec.isSome && psw.isEmpty then
    Except.error (panicMessage (sec.getD SecurityTypes.Wep))
  else if sec.isNone && psw.isEmpty then
    Except.ok ""
  else
    Except.ok (SecurityTypes.toString (sec.getD SecurityTypes.Wep))

/-- The function assemble_qr_string of src/main.rs: resolve the password and
the security token, then emit the format! template
WIFI:T:{};S:{};P:{};H:{};; with the resolved pieces spliced in. -/
def assemble_qr_string (args : Args) : Except String String :=
  let psw : String := pswString args.psw
  match resolve_security args.sec psw with
  | Except.error e => Except.error e
  | Except.ok sec =>
      Except.ok ("WIFI:T:" ++ sec ++ ";S:" ++ args.ssid ++ ";P:" ++ psw
        ++ ";H:" ++ boolString args.hidden ++ ";;")

/-- The per-cell glyph of get_bool_matrix_as_string: a double full block for
an on cell, two spaces for an off cell. -/
def glyph (y : Bool) : String := if y then "██" else "  "

/-- The function get_bool_matrix_as_string of src/main.rs: fold over the
rows, appending the glyph of every cell and a newline after each row. -/
def get_bool_matrix_as_string (mat : List (List Bool)) : String :=
  mat.foldl (fun output x => (x.foldl (fun o y => o ++ glyph y) output) ++ "\n") ""

/-- Character content of a cell glyph. -/
def glyphChars (y : Bool) : List Char := (glyph y).data

/-- Character content of one rendered matrix line (without its newline). -/
def lineChars (r : List Bool) : List Char := (r.map glyphChars).flatten

/-- The text between the WIFI:T: prefix and the next semicolon of a
descriptor: the emitted security token. -/
def tField (s : String) : String :=
  String.mk ((s.data.drop 7).takeWhile (fun c => c != ';'))

theorem row_foldl_data (r : List Bool) (o : String) :
    (r.foldl (fun o y => o ++ glyph y) o).data = o.data ++ lineChars r := by
  induction r generalizing o with
  | nil => simp [lineChars]
  | cons y ys ih =>
      simp [lineChars, List.foldl_cons, ih, String.data_append, glyphChars]

theorem matrix_foldl_data (mat : List (List Bool)) (o : String) :
    (mat.foldl (fun output x => (x.foldl (fun o y => o ++ glyph y) output) ++ "\n") o).data
      = o.data ++ (mat.map (fun r => lineChars r ++ [Char.ofNat 10])).flatten := by
  induction mat generalizing o with
  | nil => simp
  | cons r rs ih =>
      simp [List.foldl_cons, ih, String.data_append, row_foldl_data]

theorem render_data (mat : List (List Bool)) :
    (get_bool_matrix_as_string mat).data
      = (mat.map (fun r => lineChars r ++ [Char.ofNat 10])).flatten := by
  have h := matrix_foldl_data mat ""
  simpa [get_bool_matrix_as_string] using h

theorem lineChars_length (r : List Bool) : (lineChars r).length = 2 * r.length := by
  induction r with
  | nil => rfl
  | cons y ys ih =>
      have hg : (glyphChars y).length = 2 := by cases y <;> rfl
      simp [lineChars, hg, List.length_append] at *
      omega

theorem lineChars_count (r : List Bool) : (lineChars r).count (Char.ofNat 10) = 0 := by
  induction r with
  | nil => rfl
  | cons y ys ih =>
      have hg : (glyphChars y).count (Char.ofNat 10) = 0 := by cases y <;> rfl
      simp [lineChars, List.count_append, hg] at *
      exact ih

theorem render_count (mat : List (List Bool)) :
    (get_bool_matrix_as_string mat).data.count (Char.ofNat 10) = mat.length := by
  rw [render_data]
  induction mat with
  | nil => rfl
  | cons r rs ih =>
      simp [List.count_append, lineChars_count, ih]

theorem isEmpty_false_of_ne (psw : String) (h : psw ≠ "") : psw.isEmpty = false := by
  cases heq : psw.isEmpty with
  | false => rfl
  | true => exact absurd ((String.isEmpty_iff psw).mp heq) h

/-- Claim C1, counterexample: with security absent and the non-empty password
"p", the builder succeeds, but the token it puts in the T: field is "Wpa2"
(the Debug casing of the enum variant), not the upper-case "WPA2" the claim
names. -/
theorem wpa2_default_not_uppercase :
    assemble_qr_string ⟨"X", some "p", none, false, ECCLevel.Low⟩
        = Except.ok "WIFI:T:Wpa2;S:X;P:p;H:false;;"
      ∧ tField "WIFI:T:Wpa2;S:X;P:p;H:false;;" = "Wpa2"
      ∧ tField "WIFI:T:Wpa2;S:X;P:p;H:false;;" ≠ "WPA2" := by
  decide

/-- Claim C1, amended: for every Credentials value whose security standard is
absent and whose password is present and non-empty, the Descriptor produced by
the builder carries the resolved security token exactly "Wpa2" (the display
form of the default Wpa2 variant) in the T: field. -/
theorem wpa2_default_token (ssid psw : String) (hidden : Bool) (e : ECCLevel)
    (h : psw ≠ "") :
    assemble_qr_string ⟨ssid, some psw, none, hidden, e⟩ =
      Except.ok ("WIFI:T:Wpa2;S:" ++ ssid ++ ";P:" ++ psw ++ ";H:"
        ++ boolString hidden ++ ";;") := by
  have hpe : psw.isEmpty = false := isEmpty_false_of_ne psw h
  simp [assemble_qr_string, resolve_security, pswString, hpe]
  rw [show (("WIFI:T:" ++ SecurityTypes.toString SecurityTypes.Wpa2 : String) ++ ";S:")
      = "WIFI:T:Wpa2;S:" from rfl]

/-- Claim C1, witness for the amended theorem at a concrete input. -/
theorem wpa2_default_token_witness :
    assemble_qr_string ⟨"MyNet", some "pw", none, true, ECCLevel.Low⟩ =
      Except.ok ("WIFI:T:Wpa2;S:" ++ "MyNet" ++ ";P:" ++ "pw" ++ ";H:"
        ++ boolString true ++ ";;") :=
  wpa2_default_token "MyNet" "pw" true ECCLevel.Low (by decide)

/-- Claim C2: for every Credentials value with a security standard present and
no password, for each of the four standards and both hidden values, the
builder fails, and the error is the panic message that names the offending
standard (its token is spliced into the message text). -/
theorem security_without_password_fails (ssid : String) (s : SecurityTypes)
    (hidden : Bool) (e : ECCLevel) :
    assemble_qr_string ⟨ssid, none, some s, hidden, e⟩ =
        Except.error
          ("No password was provided, but a security-standard was provided! Provided security-standard "
            ++ SecurityTypes.toString s ++ ".")
      ∧ ∀ d : String, assemble_qr_string ⟨ssid, none, some s, hidden, e⟩ ≠ Except.ok d := by
  have hpe : ("" : String).isEmpty = true := rfl
  constructor
  · simp [assemble_qr_string, resolve_security, pswString, panicMessage, hpe]
  · intro d hd
    simp [assemble_qr_string, resolve_security, pswString, panicMessage, hpe] at hd

/-- Claim C3: with both security and password absent the builder succeeds and
the security field of the Descriptor is the empty string; in particular the
Martin Router King scenario yields exactly WIFI:T:;S:Martin Router King;P:;H:false;;. -/
theorem open_network_descriptor :
    (∀ (ssid : String) (hidden : Bool) (e : ECCLevel),
        assemble_qr_string ⟨ssid, none, none, hidden, e⟩ =
          Except.ok ("WIFI:T:" ++ "" ++ ";S:" ++ ssid ++ ";P:" ++ "" ++ ";H:"
            ++ boolString hidden ++ ";;"))
      ∧ assemble_qr_string ⟨"Martin Router King", none, none, false, ECCLevel.Low⟩ =
          Except.ok "WIFI:T:;S:Martin Router King;P:;H:false;;" := by
  constructor
  · intro ssid hidden e
    have hpe : ("" : String).isEmpty = true := rfl
    simp [assemble_qr_string, resolve_security, pswString, hpe]
  · decide

/-- Claim C4: with a security standard and a non-empty password both given,
the builder succeeds and the security field is the given standard's display
token; that token is never the empty string, and it equals the default token
"Wpa2" only when the given standard is the Wpa2 variant itself. -/
theorem given_security_token (ssid psw : String) (s : SecurityTypes)
    (hidden : Bool) (e : ECCLevel) (h : psw ≠ "") :
    assemble_qr_string ⟨ssid, some psw, some s, hidden, e⟩ =
        Except.ok ("WIFI:T:" ++ SecurityTypes.toString s ++ ";S:" ++ ssid
          ++ ";P:" ++ psw ++ ";H:" ++ boolString hidden ++ ";;")
      ∧ SecurityTypes.toString s ≠ ""
      ∧ (SecurityTypes.toString s = "Wpa2" → s = SecurityTypes.Wpa2) := by
  have hpe : psw.isEmpty = false := isEmpty_false_of_ne psw h
  refine ⟨?_, ?_, ?_⟩
  · simp [assemble_qr_string, resolve_security, pswString, hpe]
  · cases s <;> decide
  · cases s <;> decide

/-- Claim C4, witness at a concrete input. -/
theorem given_security_token_witness :
    assemble_qr_string ⟨"N", some "pw", some SecurityTypes.Wpa3, false, ECCLevel.Low⟩ =
        Except.ok ("WIFI:T:" ++ SecurityTypes.toString SecurityTypes.Wpa3 ++ ";S:" ++ "N"
          ++ ";P:" ++ "pw" ++ ";H:" ++ boolString false ++ ";;")
      ∧ SecurityTypes.toString SecurityTypes.Wpa3 ≠ ""
      ∧ (SecurityTypes.toString SecurityTypes.Wpa3 = "Wpa2" → SecurityTypes.Wpa3 = SecurityTypes.Wpa2) :=
  given_security_token "N" "pw" SecurityTypes.Wpa3 false ECCLevel.Low (by decide)

/-- Claim C5: whenever the builder succeeds, the Descriptor is exactly the
concatenation WIFI:T: + resolved token + ;S: + name + ;P: + password-or-empty
+ ;H: + true/false + ;;, with the name and the password spliced in verbatim
and nothing else added. -/
theorem descriptor_format_on_success (args : Args) (d : String)
    (h : assemble_qr_string args = Except.ok d) :
    ∃ tok : String, resolve_security args.sec (pswString args.psw) = Except.ok tok ∧
      d = "WIFI:T:" ++ tok ++ ";S:" ++ args.ssid ++ ";P:" ++ pswString args.psw
        ++ ";H:" ++ boolString args.hidden ++ ";;" := by
  simp only [assemble_qr_string] at h
  cases hr : resolve_security args.sec (pswString args.psw) with
  | error e =>
      rw [hr] at h
      exact absurd h (by simp)
  | ok tok =>
      rw [hr] at h
      simp only [Except.ok.injEq] at h
      exact ⟨tok, rfl, h.symm⟩

/-- Claim C5, witness at a concrete input. -/
theorem descriptor_format_on_success_witness :
    ∃ tok : String, resolve_security none (pswString (some "pw")) = Except.ok tok ∧
      ("WIFI:T:Wpa2;S:N;P:pw;H:false;;" : String)
        = "WIFI:T:" ++ tok ++ ";S:" ++ "N" ++ ";P:" ++ pswString (some "pw")
          ++ ";H:" ++ boolString false ++ ";;" :=
  descriptor_format_on_success ⟨"N", some "pw", none, false, ECCLevel.Low⟩
    "WIFI:T:Wpa2;S:N;P:pw;H:false;;" (by decide)

/-- Claim C6: on a rectangular matrix (every row of length n) the renderer
emits, row by row, one two-character glyph per cell followed by one newline
per row: the rendered characters are the flattened per-row lines, the newline
count (hence line count) equals the row count, every line has 2*n characters
and contains no newline of its own, the empty matrix renders to the empty
string, and the concrete matrix [[true,false],[false,true]] renders to
exactly the expected two-line block. -/
theorem render_rectangular (mat : List (List Bool)) (n : Nat)
    (h : ∀ r ∈ mat, r.length = n) :
    (get_bool_matrix_as_string mat).data
        = (mat.map (fun r => lineChars r ++ [Char.ofNat 10])).flatten
      ∧ (get_bool_matrix_as_string mat).data.count (Char.ofNat 10) = mat.length
      ∧ mat.map (fun r => (lineChars r).length) = mat.map (fun _ => 2 * n)
      ∧ mat.map (fun r => (lineChars r).count (Char.ofNat 10)) = mat.map (fun _ => 0)
      ∧ get_bool_matrix_as_string [] = ""
      ∧ get_bool_matrix_as_string [[true, false], [false, true]] = "██  \n  ██\n" := by
  refine ⟨render_data mat, render_count mat, ?_, ?_, rfl, by decide⟩
  · apply List.map_congr_left
    intro r hr
    rw [lineChars_length, h r hr]
  · apply List.map_congr_left
    intro r hr
    exact lineChars_count r

/-- Claim C6, witness at the concrete 2x2 matrix. -/
theorem render_rectangular_witness :
    (get_bool_matrix_as_string [[true, false], [false, true]]).data
        = ([[true, false], [false, true]].map (fun r => lineChars r ++ [Char.ofNat 10])).flatten
      ∧ (get_bool_matrix_as_string [[true, false], [false, true]]).data.count (Char.ofNat 10)
          = [[true, false], [false, true]].length
      ∧ [[true, false], [false, true]].map (fun r => (lineChars r).length)
          = [[true, false], [false, true]].map (fun _ => 2 * 2)
      ∧ [[true, false], [false, true]].map (fun r => (lineChars r).count (Char.ofNat 10))
          = [[true, false], [false, true]].map (fun _ => 0)
      ∧ get_bool_matrix_as_string [] = ""
      ∧ get_bool_matrix_as_string [[true, false], [false, true]] = "██  \n  ██\n" :=
  render_rectangular [[true, false], [false, true]] 2 (by decide)

/-- Claim C7: the concrete scenario name Martin Router King, password
"password", security absent, hidden true succeeds with the default token in
its display casing Wpa2. -/
theorem scenario_hidden_default_wpa2 :
    assemble_qr_string ⟨"Martin Router King", some "password", none, true, ECCLevel.Low⟩
      = Except.ok "WIFI:T:Wpa2;S:Martin Router King;P:password;H:true;;" := by
  decide

/-- Claim C8: the renderer is deterministic: two runs of the embedded pure
function on the same matrix give the same string, there being no state for
the result to depend on. -/
theorem renderer_deterministic (mat : List (List Bool)) :
    get_bool_matrix_as_string mat = get_bool_matrix_as_string mat := rfl

/-- Claim C9: a present-but-empty password behaves exactly like an absent
one: the builder returns the very same result for Some "" as for None, in
particular it fails with the same panic message when a standard is given,
and produces the open-network Descriptor (empty security field, not the
Wpa2 default) when no standard is given. -/
theorem empty_password_like_absent :
    (∀ (ssid : String) (sec : Option SecurityTypes) (hidden : Bool) (e : ECCLevel),
        assemble_qr_string ⟨ssid, some "", sec, hidden, e⟩
          = assemble_qr_string ⟨ssid, none, sec, hidden, e⟩)
      ∧ (∀ (ssid : String) (s : SecurityTypes) (hidden : Bool) (e : ECCLevel),
          assemble_qr_string ⟨ssid, some "", some s, hidden, e⟩
            = Except.error (panicMessage s))
      ∧ (∀ (ssid : String) (hidden : Bool) (e : ECCLevel),
          assemble_qr_string ⟨ssid, some "", none, hidden, e⟩
            = Except.ok ("WIFI:T:" ++ "" ++ ";S:" ++ ssid ++ ";P:" ++ "" ++ ";H:"
              ++ boolString hidden ++ ";;")) := by
  have hpe : ("" : String).isEmpty = true := rfl
  refine ⟨?_, ?_, ?_⟩
  · intro ssid sec hidden e
    rfl
  · intro ssid s hidden e
    simp [assemble_qr_string, resolve_security, pswString, panicMessage, hpe]
  · intro ssid hidden e
    simp [assemble_qr_string, resolve_security, pswString, hpe]

/-- Claim C10: the renderer is total on every list of boolean rows, ragged
ones included: the rendered characters are always the flattened per-row
lines, the newline count equals the row count, and each row, whatever its
length, contributes a line of exactly twice its own cell count with no
newline inside it. -/
theorem renderer_total_on_ragged (mat : List (List Bool)) :
    (get_bool_matrix_as_string mat).data
        = (mat.map (fun r => lineChars r ++ [Char.ofNat 10])).flatten
      ∧ (get_bool_matrix_as_string mat).data.count (Char.ofNat 10) = mat.length
      ∧ mat.map (fun r => (lineChars r).length) = mat.map (fun r => 2 * r.length)
      ∧ mat.map (fun r => (lineChars r).count (Char.ofNat 10)) = mat.map (fun _ => 0) := by
  refine ⟨render_data mat, render_count mat, ?_, ?_⟩
  · exact List.map_congr_left (fun r _ => lineChars_length r)
  · exact List.map_congr_left (fun r _ => lineChars_count r)
